import Mathlib

/-!
Shallow embedding of the core networking logic of the
BuildOwnVersionInternet repository (a small IPv4 software router and the
"cTCP" reliable transport with a BBR-style congestion controller), with
theorems checking the natural-language specification against the code.

Sources embedded:
  * src/lab3/ctcp.c      (on_air, ctcp_read, ctcp_receive, ctcp_output)
  * src/lab3/ctcp_bbr.c  (gain constants, cycle phase, PROBE_RTT logic)
  * src/lab1/router/sr_router.c (sr_handle_ip, sr_rt_for_dst,
    sr_send_icmp, sr_send_icmp_t3)

Machine integers are modelled as `Nat` with explicit `% 2^w` where the C
code truncates; fields kept in network byte order in C are modelled by
their decoded host values, since every C access goes through
ntohl/ntohs/htonl/htons.
-/

/-! ## cTCP segments (ctcp_sys.h wire format, spec section 6)

A cTCP segment header is 20 bytes: seqno(4), ackno(4), len(2, total
segment bytes including header), flags(4, bit ACK=0x10, FIN=0x1),
window(2), checksum(2), then payload.  The checksum field is not
modelled as data; the `corrupted` check (whose `cksum` helper lives in
ctcp_utils.c, outside src/) is passed to `ctcp_receive` as the boolean
it produces. -/

/-- Bit mask of the ACK flag (ctcp_sys.h, spec section 6: 0x10). -/
def ctcpACK : Nat := 16

/-- Bit mask of the FIN flag (ctcp_sys.h, spec section 6: 0x1). -/
def ctcpFIN : Nat := 1

/-- The value of `sizeof(ctcp_segment_t)`: 20-byte header (spec section 6). -/
def ctcpHdrSize : Nat := 20

/-- A cTCP segment, fields in decoded host order.  `data` holds the
payload bytes that follow the 20-byte header. -/
structure Seg where
  seqno : Nat
  ackno : Nat
  len : Nat
  flags : Nat
  window : Nat
  data : List Nat
  deriving Repr, DecidableEq

/-- The payload length `ntohs(segment->len) - sizeof(ctcp_segment_t)`.
Faithful to the C size_t arithmetic whenever `ctcpHdrSize ≤ len`, which
the theorems below hypothesise. -/
def segDataLen (s : Seg) : Nat := s.len - ctcpHdrSize

/-- Does the segment have the FIN bit set (`segment->flags & htonl(FIN)`)? -/
def segHasFIN (s : Seg) : Bool := s.flags &&& ctcpFIN != 0

/-- Does the segment have the ACK bit set (`segment->flags & htonl(ACK)`)? -/
def segHasACK (s : Seg) : Bool := s.flags &&& ctcpACK != 0

/-! ## Connection state (struct ctcp_state, ctcp.c lines 28-64)

Only the fields the embedded functions read or write are carried; the
configuration's send/receive windows are inlined from `cfg`. -/

structure CState where
  seqno : Nat
  ackno : Nat
  send_window : Nat
  recv_window : Nat
  send_fin : Bool
  receive_fin : Bool
  receive_ack_fin : Bool
  unacked : List Seg
  unoutput : List Seg
  retransmition : Nat
  last_retransmit_time : Nat
  deriving Repr, DecidableEq

/-! ## on_air (ctcp.c lines 88-101)

`data_len` is a `uint16_t`; the first `+=` adds the `uint32` difference
of the seqnos (truncated to 16 bits on assignment), the second adds the
`size_t` difference `ntohs(back->len) - sizeof(ctcp_segment_t)`.  The
modular reductions below reproduce those conversions exactly for
segments with `front.seqno ≤ back.seqno < 2^32` and
`ctcpHdrSize ≤ back.len` (true of every segment the sender builds). -/

def on_air (st : CState) : Nat :=
  match st.unacked with
  | [] => 0
  | front :: rest =>
    let back := rest.getLastD front
    (((back.seqno + 2 ^ 32 - front.seqno) % 2 ^ 32) % 2 ^ 16
      + (back.len - ctcpHdrSize)) % 2 ^ 16

/-! ## ctcp_output (ctcp.c lines 485-536)

The loop pops the head of `unoutput` while its seqno equals the current
ackno.  `conn_bufspace` is modelled by the oracle `B : Nat → Nat`
giving the result of its k-th call; `conn_output` calls are collected
as `Write`s.  When the head's payload does not fit, the C code
`return`s from inside the loop, skipping the final
`if (has_output) send_ack_segment(state)`. -/

/-- One `conn_output` call: a payload write or the zero-byte EOF write
issued for a FIN segment. -/
inductive Write where
  | data (bytes : List Nat)
  | eof
  deriving Repr, DecidableEq

/-- The embedding of `send_ack_segment` (ctcp.c lines 118-131): a pure cumulative ACK
carrying the state's current seqno/ackno (checksum field elided). -/
def send_ack_segment (st : CState) : Seg :=
  { seqno := st.seqno, ackno := st.ackno, len := ctcpHdrSize,
    flags := ctcpACK, window := st.recv_window, data := [] }

/-- Result of `ctcp_output`: the updated state, the `conn_output`
writes, the segments passed to `conn_send` (at most the one pure ACK),
and whether the loop exited through the early `return` at the
buffer-space check. -/
structure OutResult where
  st : CState
  writes : List Write
  sent : List Seg
  early : Bool
  deriving Repr, DecidableEq

/-- The while-loop of ctcp_output (lines 493-530), recursing on the
`unoutput` list.  `k` counts `conn_bufspace` calls, `hasOutput` is the
`has_output` flag.  Returns the final ackno, the remaining queue, the
writes, the final `has_output`, and whether the early `return` fired
(in which case the caller sends no ACK). -/
def ctcp_output_loop (B : Nat → Nat) :
    List Seg → Nat → Nat → Bool → Nat × List Seg × List Write × Bool × Bool
  | [], ackno, _, hasOutput => (ackno, [], [], hasOutput, false)
  | seg :: rest, ackno, k, hasOutput =>
    if ackno = seg.seqno then
      if B k < segDataLen seg then
        (ackno, seg :: rest, [], hasOutput, true)
      else
        let ackno1 := (ackno + segDataLen seg) % 2 ^ 32
        let ackno2 := if segHasFIN seg then (ackno1 + 1) % 2 ^ 32 else ackno1
        let ws := if segHasFIN seg then [Write.data seg.data, Write.eof]
                  else [Write.data seg.data]
        let r := ctcp_output_loop B rest ackno2 (k + 1) true
        (r.1, r.2.1, ws ++ r.2.2.1, r.2.2.2.1, r.2.2.2.2)
    else
      (ackno, seg :: rest, [], hasOutput, false)

/-- The embedding of `ctcp_output` (ctcp.c lines 485-536). -/
def ctcp_output (st : CState) (B : Nat → Nat) : OutResult :=
  let r := ctcp_output_loop B st.unoutput st.ackno 0 false
  let st1 := { st with ackno := r.1, unoutput := r.2.1 }
  { st := st1, writes := r.2.2.1,
    sent := if r.2.2.2.1 ∧ r.2.2.2.2 = false then [send_ack_segment st1] else [],
    early := r.2.2.2.2 }

/-- The amount `ctcp_output` advances `ackno` for one delivered
segment: the payload length, plus one if the FIN flag is set. -/
def segAdvance (s : Seg) : Nat :=
  segDataLen s + (if segHasFIN s then 1 else 0)

/-- The `conn_output` calls one delivered segment produces: its payload
write, followed by the zero-byte EOF write when FIN is set. -/
def segWrites (s : Seg) : List Write :=
  if segHasFIN s then [Write.data s.data, Write.eof] else [Write.data s.data]

/-- A queue of segments is a contiguous chain starting at `a`: each
segment's seqno is `a` plus the advances of the segments before it.
This is the shape the unoutput queue has when the received seqnos form
a permutation of a contiguous range starting at the initial ackno. -/
def chainFrom : Nat → List Seg → Prop
  | _, [] => True
  | a, s :: rest => s.seqno = a ∧ chainFrom (a + segAdvance s) rest

instance : ∀ (a : Nat) (l : List Seg), Decidable (chainFrom a l)
  | _, [] => .isTrue trivial
  | a, s :: rest =>
    have : Decidable (chainFrom (a + segAdvance s) rest) :=
      instDecidableChainFrom _ _
    instDecidableAnd

/-- First segment of the concrete two-segment chain: seqno 1, one
payload byte. -/
def cSegA : Seg :=
  { seqno := 1, ackno := 1, len := 21, flags := ctcpACK, window := 100,
    data := [97] }

/-- Second segment of the concrete chain: seqno 2, two payload bytes,
FIN set. -/
def cSegB : Seg :=
  { seqno := 2, ackno := 1, len := 22, flags := ctcpACK + ctcpFIN,
    window := 100, data := [98, 99] }

/-- A concrete connection state whose unoutput queue is the contiguous
chain `[cSegA, cSegB]` with ackno 1. -/
def chainSt : CState :=
  { seqno := 7, ackno := 1, send_window := 100, recv_window := 50,
    send_fin := false, receive_fin := false, receive_ack_fin := false,
    unacked := [], unoutput := [cSegA, cSegB],
    retransmition := 0, last_retransmit_time := 0 }

/-! ## ctcp_receive (ctcp.c lines 327-482) and ctcp_read (lines 261-324)

The `corrupted` checksum test (ctcp_utils.c, outside src/) enters
`ctcp_receive` as the boolean `corrupt` it returns; `conn_bufspace` for
the final `ctcp_output` call is the oracle `B`. -/

/-- The while loop of ACK processing (ctcp.c lines 398-413): remove
from the head of `unacked` every segment whose seqno is below the
received ackno, stopping at the first that is not. -/
def dropAcked : List Seg → Nat → List Seg
  | [], _ => []
  | s :: rest, a => if s.seqno < a then dropAcked rest a else s :: rest

/-- The middle insertion walk of ctcp_receive (lines 453-469): for each
adjacent pair of original nodes, insert the segment between them when
its seqno falls strictly between theirs. -/
def insertWalk (seg : Seg) : List Seg → List Seg
  | [] => []
  | [x] => [x]
  | x :: y :: rest =>
    if x.seqno < seg.seqno ∧ seg.seqno < y.seqno
    then x :: seg :: insertWalk seg (y :: rest)
    else x :: insertWalk seg (y :: rest)

/-- Insertion of a received segment into the unoutput queue
(ctcp.c lines 437-475). -/
def insertUnoutput (l : List Seg) (seg : Seg) : List Seg :=
  match l with
  | [] => [seg]
  | first :: rest =>
    let last := (first :: rest).getLast (by simp)
    if seg.seqno < first.seqno then seg :: first :: rest
    else if seg.seqno > last.seqno then (first :: rest) ++ [seg]
    else insertWalk seg (first :: rest)

/-- Result of `ctcp_receive`: the updated state, the segments passed to
`conn_send` (pure ACKs), and the `conn_output` writes. -/
structure RecvResult where
  st : CState
  sent : List Seg
  writes : List Write
  deriving Repr, DecidableEq

/-- The embedding of `ctcp_receive` (ctcp.c lines 327-482): corruption gate, stale gate,
duplicate gate, ACK processing, FIN detection, insertion into unoutput,
then `ctcp_output`. -/
def ctcp_receive (st : CState) (seg : Seg) (corrupt : Bool) (B : Nat → Nat) :
    RecvResult :=
  if corrupt then ⟨st, [], []⟩
  else if seg.seqno < st.ackno ∧ (0 < segDataLen seg ∨ segHasFIN seg = true) then
    ⟨st, [send_ack_segment st], []⟩
  else if st.unoutput.any (fun u => u.seqno == seg.seqno) then
    ⟨st, [send_ack_segment st], []⟩
  else
    let st1 := if segHasACK seg then
        { st with unacked := dropAcked st.unacked seg.ackno,
                  receive_ack_fin := if st.send_fin then true
                                     else st.receive_ack_fin }
      else st
    let st2 := if segHasFIN seg then { st1 with receive_fin := true } else st1
    let st3 := if 0 < segDataLen seg ∨ segHasFIN seg = true then
        { st2 with unoutput := insertUnoutput st2.unoutput seg }
      else st2
    let r := ctcp_output st3 B
    ⟨r.st, r.sent, r.writes⟩

/-- The embedding of `send_fin_segment` (ctcp.c lines 134-147). -/
def send_fin_segment (st : CState) : Seg :=
  { seqno := st.seqno, ackno := st.ackno, len := ctcpHdrSize,
    flags := ctcpFIN, window := st.recv_window, data := [] }

/-- The embedding of `send_data_segment` (ctcp.c lines 150-164). -/
def send_data_segment (st : CState) (buf : List Nat) : Seg :=
  { seqno := st.seqno, ackno := st.ackno, len := ctcpHdrSize + buf.length,
    flags := ctcpACK, window := st.recv_window, data := buf }

/-- Result of `conn_input` (substrate): `avail bytes` for a positive
return with those bytes, `nothingAvail` for 0, `eofIn` for -1. -/
inductive ConnInput where
  | avail (bytes : List Nat)
  | nothingAvail
  | eofIn
  deriving Repr, DecidableEq

/-- The embedding of `ctcp_read` (ctcp.c lines 261-324).  The window and FIN guards come
first; then `conn_input`'s result is dispatched.  The incomplete
`bbr_segment` bookkeeping statement at source line 306 (a truncated,
non-compiling assignment) has no effect on the connection state and is
omitted; the `ll_add(state->unacked, fin)` that follows it is kept. -/
def ctcp_read (st : CState) (inp : ConnInput) (now : Nat) : CState × List Seg :=
  if st.send_window ≤ on_air st then (st, [])
  else if st.send_fin then (st, [])
  else match inp with
    | .nothingAvail => (st, [])
    | .eofIn =>
      let fin := send_fin_segment st
      ({ st with seqno := (st.seqno + 1) % 2 ^ 32, send_fin := true,
                 retransmition := 0, last_retransmit_time := now,
                 unacked := st.unacked ++ [fin] }, [fin])
    | .avail bytes =>
      let seg := send_data_segment st bytes
      ({ st with seqno := (st.seqno + bytes.length) % 2 ^ 32,
                 retransmition := 0, last_retransmit_time := now,
                 unacked := st.unacked ++ [seg] }, [seg])

/-! ## Claims C4, C5: stale-segment handling and ACK processing -/

/-- A sent 7-byte data segment occupying seqnos 3..9. -/
def dataSeg3 : Seg :=
  { seqno := 3, ackno := 5, len := 27, flags := ctcpACK, window := 50,
    data := [1, 2, 3, 4, 5, 6, 7] }

/-- The sent FIN segment, seqno 10. -/
def finSeg10 : Seg :=
  { seqno := 10, ackno := 5, len := 20, flags := ctcpFIN, window := 50,
    data := [] }

/-- A connection that has sent a FIN (seqno 10) still unacknowledged,
with ackno 5. -/
def finWaitSt : CState :=
  { seqno := 11, ackno := 5, send_window := 100, recv_window := 50,
    send_fin := true, receive_fin := false, receive_ack_fin := false,
    unacked := [dataSeg3, finSeg10], unoutput := [],
    retransmition := 0, last_retransmit_time := 0 }

/-- A stale segment (seqno 1 < ackno 5) carrying neither payload nor
FIN, but with the ACK flag and ackno 9. -/
def staleAckSeg : Seg :=
  { seqno := 1, ackno := 9, len := ctcpHdrSize, flags := ctcpACK,
    window := 50, data := [] }

/-- A stale data segment (seqno 2 < ackno 5, one payload byte). -/
def staleDataSeg : Seg :=
  { seqno := 2, ackno := 1, len := 21, flags := ctcpACK, window := 50,
    data := [120] }

/-- A non-stale pure ACK (seqno 5 = ackno, ackno 7) that does not cover
the FIN's seqno 10. -/
def nonStaleAck : Seg :=
  { seqno := 5, ackno := 7, len := ctcpHdrSize, flags := ctcpACK,
    window := 50, data := [] }

/-- First unacked segment of the wrap-around queue: seqno 1, one byte. -/
def wrapFront : Seg :=
  { seqno := 1, ackno := 1, len := 21, flags := ctcpACK, window := 50,
    data := [0] }

/-- Last unacked segment of the wrap-around queue: seqno 65537,
header-only. -/
def wrapBack : Seg :=
  { seqno := 65537, ackno := 1, len := ctcpHdrSize, flags := ctcpFIN,
    window := 50, data := [] }

/-- A connection whose unacked queue spans 65536 bytes in flight. -/
def wrapSt : CState :=
  { seqno := 65537, ackno := 1, send_window := 70000, recv_window := 50,
    send_fin := true, receive_fin := false, receive_ack_fin := false,
    unacked := [wrapFront, wrapBack], unoutput := [],
    retransmition := 0, last_retransmit_time := 0 }

/-! ## BBR congestion controller (ctcp_bbr.c, ctcp_bbr.h)

The C gain constants are written as quotients of integer literals
(`2885 / 1000` etc.); C evaluates them with integer division BEFORE the
float conversion, so they are embedded with Nat division, which yields
the very values the C produces.  `rand()` is modelled by the parameter
`r`, `current_time()` by the parameter `now`. -/

/-- The four BBR modes (enum bbr_mode, ctcp_bbr.c lines 8-14). -/
inductive BbrMode where
  | STARTUP
  | DRAIN
  | PROBE_BW
  | PROBE_RTT
  deriving Repr, DecidableEq

/-- CYCLE_LEN (ctcp_bbr.h line 19): phases in a pacing gain cycle. -/
def CYCLE_LEN : Nat := 8

/-- BBR_UNIT (ctcp_bbr.h line 17): `1 << 8`. -/
def BBR_UNIT : Nat := 256

/-- The embedding of `bbr_probe_rtt_mode_ms` (ctcp_bbr.c line 17). -/
def bbr_probe_rtt_mode_ms : Nat := 200

/-- The embedding of `bbr_high_gain = 2885 / 1000` (line 23): C integer division, = 2. -/
def bbr_high_gain : Nat := 2885 / 1000

/-- The embedding of `bbr_drain_gain = 1000 / 2885` (line 24): C integer division, = 0. -/
def bbr_drain_gain : Nat := 1000 / 2885

/-- The embedding of `bbr_cwnd_gain = 2` (line 25). -/
def bbr_cwnd_gain : Nat := 2

/-- The embedding of `bbr_pacing_gain[] = {5 / 4, 3 / 4, 1, 1, 1, 1, 1, 1}` (line 27):
the initializers are C integer divisions. -/
def bbr_pacing_gain : List Nat := [5 / 4, 3 / 4, 1, 1, 1, 1, 1, 1]

/-- The embedding of `bbr_cycle_rand = 7` (line 28). -/
def bbr_cycle_rand : Nat := 7

/-- The embedding of `bbr_full_bw_thresh = 5 / 4` (line 37): C integer division, = 1. -/
def bbr_full_bw_thresh : Nat := 5 / 4

/-- The embedding of `bbr_full_bw_cnt = 3` (line 38). -/
def bbr_full_bw_cnt_const : Nat := 3

/-- BBR congestion control block (struct bbr_state, ctcp_bbr.h).
`RTpropFilter` has 10 entries (BBR_RTT_RTTS); the filter functions
below are faithful for that length. -/
structure BbrState where
  pacing_gain : Nat
  cwnd_gain : Nat
  mode : BbrMode
  max_btlbw : Nat
  max_btlbw_stamp : Nat
  min_rtt_us : Nat
  min_rtt_stamp : Nat
  pacing_rate : Nat
  cwnd : Nat
  BtlBwFilter : List Nat
  RTpropFilter : List Nat
  cycle_idx : Nat
  full_bw : Nat
  full_bw_cnt : Nat
  inflight : Nat
  probe_rtt_done_stamp : Nat
  restore_cwnd : Bool
  prior_cwnd : Nat
  deriving Repr, DecidableEq

/-- The embedding of `bbr_full_bw_reached` (ctcp_bbr.c lines 169-172). -/
def bbr_full_bw_reached (bbr : BbrState) : Bool :=
  bbr.full_bw_cnt ≥ bbr_full_bw_cnt_const

/-- The embedding of `bbr_advance_cycle_phase` (lines 162-166): the next index is taken
modulo CYCLE_LEN − 1 (seven), and the pacing gain is read from the
table at the new index. -/
def bbr_advance_cycle_phase (bbr : BbrState) : BbrState :=
  let idx := (bbr.cycle_idx + 1) % (CYCLE_LEN - 1)
  { bbr with cycle_idx := idx, pacing_gain := bbr_pacing_gain.getD idx 0 }

/-- The embedding of `bbr_reset_startup_mode` (lines 273-278). -/
def bbr_reset_startup_mode (bbr : BbrState) : BbrState :=
  { bbr with
    mode := .STARTUP, pacing_gain := bbr_high_gain,
    cwnd_gain := bbr_high_gain }

/-- The embedding of `bbr_reset_probe_bw_mode` (lines 287-293); `r` is the `rand()`
value. -/
def bbr_reset_probe_bw_mode (bbr : BbrState) (r : Nat) : BbrState :=
  { bbr with
    mode := .PROBE_BW, pacing_gain := BBR_UNIT,
    cwnd_gain := bbr_cwnd_gain,
    cycle_idx := CYCLE_LEN - 1 - r % bbr_cycle_rand }

/-- The embedding of `bbr_reset_mode` (lines 295-305). -/
def bbr_reset_mode (bbr : BbrState) (r : Nat) : BbrState :=
  if ¬ bbr_full_bw_reached bbr then bbr_reset_startup_mode bbr
  else bbr_reset_probe_bw_mode bbr r

/-- The embedding of `bbr_save_cwnd` (lines 307-311). -/
def bbr_save_cwnd (bbr : BbrState) : BbrState :=
  { bbr with prior_cwnd := bbr.cwnd, restore_cwnd := true }

/-- The RTprop-filter shift of `bbr_update_min_rtt` (lines 237-246):
the window slides left one slot, the new sample enters the last slot,
and `min_rtt_us` becomes the minimum of the sample and the shifted
slots. -/
def bbr_update_min_rtt_filter (bbr : BbrState) (rtt_sample now : Nat) :
    BbrState :=
  { bbr with
    min_rtt_us := (bbr.RTpropFilter.drop 1).foldl
      (fun m x => if m > x then x else m) rtt_sample,
    RTpropFilter := bbr.RTpropFilter.drop 1 ++ [rtt_sample],
    min_rtt_stamp := now }

/-- The embedding of `bbr_update_min_rtt` (ctcp_bbr.c lines 233-271).  The exit test at
line 262 is the source's `probe_rtt_done_stamp >= current_time()`. -/
def bbr_update_min_rtt (bbr : BbrState) (rtt_sample now r : Nat) : BbrState :=
  let last_min_rtt_us := bbr.min_rtt_us
  let bbr1 := bbr_update_min_rtt_filter bbr rtt_sample now
  let bbr2 :=
    if 0 < bbr_probe_rtt_mode_ms ∧ bbr1.min_rtt_us > last_min_rtt_us ∧
        bbr1.mode ≠ BbrMode.PROBE_RTT then
      { bbr_save_cwnd
          { bbr1 with
            mode := .PROBE_RTT, pacing_gain := BBR_UNIT,
            cwnd_gain := BBR_UNIT } with
        probe_rtt_done_stamp := bbr_probe_rtt_mode_ms + now }
    else bbr1
  if bbr2.mode = BbrMode.PROBE_RTT ∧ bbr2.probe_rtt_done_stamp ≥ now then
    let bbr3 := bbr_reset_mode bbr2 r
    if bbr3.restore_cwnd then
      { bbr3 with
        cwnd := if bbr3.cwnd > bbr3.prior_cwnd then bbr3.cwnd
                else bbr3.prior_cwnd,
        restore_cwnd := false }
    else bbr3
  else bbr2

/-- A STARTUP-mode controller whose RTprop window only holds samples of
5 while the previous windowed minimum was 3, so the next
`bbr_update_min_rtt` call sees the filter "expire" and enters
PROBE_RTT. -/
def probeSt : BbrState :=
  { pacing_gain := 2, cwnd_gain := 2, mode := .STARTUP, max_btlbw := 100,
    max_btlbw_stamp := 0, min_rtt_us := 3, min_rtt_stamp := 0,
    pacing_rate := 50, cwnd := 40,
    BtlBwFilter := [0, 0, 0, 0, 0, 0, 0, 0, 0, 0],
    RTpropFilter := [5, 5, 5, 5, 5, 5, 5, 5, 5, 5],
    cycle_idx := 0, full_bw := 0, full_bw_cnt := 0, inflight := 0,
    probe_rtt_done_stamp := 0, restore_cwnd := false, prior_cwnd := 0 }

/-! ## Router data model (sr_router.c; headers sr_if.h / sr_rt.h /
sr_protocol.h are not under src/, so their record layouts follow the
wire formats of spec section 6)

IPv4 addresses and MACs are modelled as `Nat` values; multi-byte header
fields are the decoded values (the C code compares `s_addr` fields in
network order on both sides of every comparison, so address equality
and mask-and are order-independent). -/

/-- Ethernet header view of a frame. -/
structure EthHdr where
  ether_dhost : Nat
  ether_shost : Nat
  ether_type : Nat
  deriving Repr, DecidableEq

/-- IPv4 header (sr_ip_hdr_t). -/
structure IpHdr where
  ip_hl : Nat
  ip_v : Nat
  ip_tos : Nat
  ip_len : Nat
  ip_id : Nat
  ip_off : Nat
  ip_ttl : Nat
  ip_p : Nat
  ip_sum : Nat
  ip_src : Nat
  ip_dst : Nat
  deriving Repr, DecidableEq

/-- ICMP type-3 header view (sr_icmp_t3_hdr_t): 4-byte head, 2-byte
unused, 2-byte next_mtu, 28 data bytes. -/
structure IcmpT3Hdr where
  icmp_type : Nat
  icmp_code : Nat
  icmp_sum : Nat
  unused : Nat
  next_mtu : Nat
  data : List Nat
  deriving Repr, DecidableEq

/-- A parsed frame: Ethernet header, IP header, the ICMP region viewed
as a type-3 header, and the raw bytes following the IP header (the
source copies `ICMP_DATA_SIZE` bytes starting at the IP header into
ICMP error payloads). -/
structure Packet where
  eth : EthHdr
  ip : IpHdr
  icmp : IcmpT3Hdr
  ipPayload : List Nat
  deriving Repr, DecidableEq

/-- A router interface (struct sr_if: name, IP, MAC). -/
structure SrIface where
  name : String
  ip : Nat
  addr : Nat
  deriving Repr, DecidableEq

/-- A routing table entry (struct sr_rt: dest, gw, mask, interface). -/
structure SrRtEntry where
  dest : Nat
  gw : Nat
  mask : Nat
  interface : String
  deriving Repr, DecidableEq

/-- An ARP cache entry (struct sr_arpentry: ip, mac, insertion time). -/
structure ArpEntry where
  ip : Nat
  mac : Nat
  added : Nat
  deriving Repr, DecidableEq

/-- The router instance: interfaces, routing table, ARP cache. -/
structure SrInstance where
  if_list : List SrIface
  routing_table : List SrRtEntry
  cache : List ArpEntry
  deriving Repr, DecidableEq

/-- The value of `sizeof(sr_ethernet_hdr_t)` = 14. -/
def sizeof_eth : Nat := 14

/-- The value of `sizeof(sr_ip_hdr_t)` = 20. -/
def sizeof_ip : Nat := 20

/-- The value of `ICMP_DATA_SIZE` = 28 (spec section 4.R2). -/
def ICMP_DATA_SIZE : Nat := 28

/-- The value of `sizeof(sr_icmp_t3_hdr_t)` = 8 + ICMP_DATA_SIZE = 36. -/
def sizeof_icmp_t3 : Nat := 8 + ICMP_DATA_SIZE

/-- The value of `ip_protocol_icmp` = 1. -/
def ip_protocol_icmp : Nat := 1

/-- The value of `ethertype_ip` = 0x0800. -/
def ethertype_ip : Nat := 2048

/-- The value of `IP_DF` = 0x4000. -/
def IP_DF : Nat := 16384

/-- Big-endian bytes of a 16-bit value. -/
def bytes16 (n : Nat) : List Nat := [n / 256 % 256, n % 256]

/-- Big-endian bytes of a 32-bit value. -/
def bytes32 (n : Nat) : List Nat :=
  [n / 2 ^ 24 % 256, n / 2 ^ 16 % 256, n / 256 % 256, n % 256]

/-- Modelled from the spec: the 20-byte on-wire serialization of an
IPv4 header (spec section 6, standard IPv4 layout; sr_protocol.h is not
under src/). -/
def ipHdrBytes (h : IpHdr) : List Nat :=
  [(h.ip_v % 16) * 16 + h.ip_hl % 16, h.ip_tos % 256]
  ++ bytes16 h.ip_len ++ bytes16 h.ip_id ++ bytes16 h.ip_off
  ++ [h.ip_ttl % 256, h.ip_p % 256] ++ bytes16 h.ip_sum
  ++ bytes32 h.ip_src ++ bytes32 h.ip_dst

/-- Modelled from the spec: the 36-byte serialization of an ICMP
type-3-format header (spec section 6). -/
def icmpT3Bytes (h : IcmpT3Hdr) : List Nat :=
  [h.icmp_type % 256, h.icmp_code % 256] ++ bytes16 h.icmp_sum
  ++ bytes16 h.unused ++ bytes16 h.next_mtu ++ h.data.map (· % 256)

/-- Pair bytes into big-endian 16-bit words (odd trailing byte padded
with zero). -/
def words16 : List Nat → List Nat
  | [] => []
  | [b] => [b * 256]
  | b1 :: b2 :: rest => (b1 * 256 + b2) :: words16 rest

/-- Fold the carries of a ones-complement sum back into the low 16
bits.  Three folds reach a fixed point for every sum below 2^48, far
above any checksummed region here; on values already below 2^16 it is
the identity. -/
def reduceCarry (n : Nat) : Nat :=
  let r1 := n % 65536 + n / 65536
  let r2 := r1 % 65536 + r1 / 65536
  r2 % 65536 + r2 / 65536

/-- Modelled from the spec: `cksum` (sr_utils.c / ctcp_utils.c, not
under src/): the ones-complement of the 16-bit ones-complement sum of
the data (spec sections 3 and 8). -/
def cksumBytes (bs : List Nat) : Nat :=
  65535 - reduceCarry ((words16 bs).foldl (· + ·) 0)

/-- Modelled from the spec: `sr_get_interface` (sr_if.c, not under
src/): the interface record with the given name.  The C code
dereferences the result unchecked; the default is never reached on the
theorems' domains. -/
def sr_get_interface (sr : SrInstance) (name : String) : SrIface :=
  (sr.if_list.find? (fun i => i.name == name)).getD ⟨"", 0, 0⟩

/-- Modelled from the spec: `sr_arpcache_lookup` (sr_arpcache.c, not
under src/): the MAC mapped to `ip` when a cache entry no older than
15 s exists (spec section 4.R3; times in seconds). -/
def sr_arpcache_lookup (cache : List ArpEntry) (ip now : Nat) : Option Nat :=
  (cache.find? (fun e => e.ip == ip && now ≤ e.added + 15)).map (fun e => e.mac)

/-- The scan loop of `sr_rt_for_dst` (sr_router.c lines 306-318),
carrying `best_rt` and `longest_mask`. -/
def sr_rt_for_dst_loop (dst : Nat) :
    List SrRtEntry → Option SrRtEntry → Nat → Option SrRtEntry
  | [], best, _ => best
  | e :: rest, best, longest =>
    if e.mask &&& dst = e.dest ∧ (longest = 0 ∨ e.mask > longest) then
      sr_rt_for_dst_loop dst rest (some e) e.mask
    else
      sr_rt_for_dst_loop dst rest best longest

/-- The embedding of `sr_rt_for_dst` (sr_router.c lines 300-320). -/
def sr_rt_for_dst (sr : SrInstance) (dst : Nat) : Option SrRtEntry :=
  sr_rt_for_dst_loop dst sr.routing_table none 0

/-- Does a routing entry match a destination
(`(rt->mask.s_addr & dst) == rt->dest.s_addr`)? -/
def rtMatches (e : SrRtEntry) (dst : Nat) : Prop := e.mask &&& dst = e.dest

instance (e : SrRtEntry) (dst : Nat) : Decidable (rtMatches e dst) :=
  inferInstanceAs (Decidable (_ = _))

/-- The embedding of `sr_send_icmp` (sr_router.c lines 322-374): builds the echo-style
reply from the inbound packet, the requested type/code and the
receiving interface. -/
def sr_send_icmp (p : Packet) (icmp_type icmp_code : Nat)
    (rec_iface : SrIface) : Packet :=
  let icmp0 : IcmpT3Hdr :=
    { icmp_type := icmp_type, icmp_code := icmp_code,
      unused := p.icmp.unused, next_mtu := p.icmp.next_mtu,
      data := (ipHdrBytes p.ip ++ p.ipPayload).take ICMP_DATA_SIZE,
      icmp_sum := 0 }
  let icmp1 := { icmp0 with icmp_sum := cksumBytes (icmpT3Bytes icmp0) }
  let ip0 : IpHdr :=
    { ip_hl := 5, ip_v := p.ip.ip_v, ip_tos := p.ip.ip_tos,
      ip_len := sizeof_icmp_t3 + sizeof_ip, ip_id := p.ip.ip_id,
      ip_off := IP_DF, ip_dst := p.ip.ip_src, ip_src := rec_iface.ip,
      ip_p := ip_protocol_icmp, ip_ttl := 60, ip_sum := 0 }
  let ip1 := { ip0 with ip_sum := cksumBytes (ipHdrBytes ip0) }
  let eth1 : EthHdr :=
    { ether_type := ethertype_ip, ether_dhost := p.eth.ether_shost,
      ether_shost := rec_iface.addr }
  { eth := eth1, ip := ip1, icmp := icmp1, ipPayload := icmpT3Bytes icmp1 }

/-- The embedding of `sr_send_icmp_t3` (sr_router.c lines 376-428): as `sr_send_icmp`
but with `unused := 0` and `next_mtu := 1500`. -/
def sr_send_icmp_t3 (p : Packet) (icmp_type icmp_code : Nat)
    (rec_if : SrIface) : Packet :=
  let icmp0 : IcmpT3Hdr :=
    { icmp_type := icmp_type, icmp_code := icmp_code,
      unused := 0, next_mtu := 1500,
      data := (ipHdrBytes p.ip ++ p.ipPayload).take ICMP_DATA_SIZE,
      icmp_sum := 0 }
  let icmp1 := { icmp0 with icmp_sum := cksumBytes (icmpT3Bytes icmp0) }
  let ip0 : IpHdr :=
    { ip_hl := 5, ip_v := p.ip.ip_v, ip_tos := p.ip.ip_tos,
      ip_len := sizeof_icmp_t3 + sizeof_ip, ip_id := p.ip.ip_id,
      ip_off := IP_DF, ip_dst := p.ip.ip_src, ip_src := rec_if.ip,
      ip_p := ip_protocol_icmp, ip_ttl := 60, ip_sum := 0 }
  let ip1 := { ip0 with ip_sum := cksumBytes (ipHdrBytes ip0) }
  let eth1 : EthHdr :=
    { ether_type := ethertype_ip, ether_dhost := p.eth.ether_shost,
      ether_shost := rec_if.addr }
  { eth := eth1, ip := ip1, icmp := icmp1, ipPayload := icmpT3Bytes icmp1 }

/-- The externally visible effect of `sr_handle_ip`: drop, send a
synthesized echo-style reply, send a type-3/11 error, transmit a
rewritten frame, or queue it on a pending ARP request keyed by
`nextHop`. -/
inductive RouterAction where
  | drop
  | echoReply (reply : Packet) (iface : String)
  | icmpT3 (ty code : Nat) (reply : Packet) (iface : String)
  | forward (p : Packet) (iface : String)
  | queueArp (nextHop : Nat) (p : Packet) (iface : String)
  deriving Repr, DecidableEq

/-- The in-place mutation sr_handle_ip performs on a transit packet
before forwarding (sr_router.c lines 173-185): decrement the TTL (the C
`uint8_t` decrement wraps 0 to 255) and recompute the IP checksum over
the header with the checksum field zeroed. -/
def sr_transit_rewrite (p : Packet) : Packet :=
  let p1 := { p with ip := { p.ip with ip_ttl := (p.ip.ip_ttl + 255) % 256 } }
  { p1 with
    ip := { p1.ip with
      ip_sum := cksumBytes (ipHdrBytes { p1.ip with ip_sum := 0 }) } }

/-- The embedding of `sr_handle_ip` (sr_router.c lines 101-225).  The TTL decrement is
the C `uint8_t` decrement (0 wraps to 255); `now` feeds the ARP cache
validity check.  The length test is the C
`len - sizeof(sr_ethernet_hdr_t) < sizeof(sr_ip_hdr_t)` (callers
guarantee `len ≥ 14`, where the Nat subtraction agrees with the C
unsigned one). -/
def sr_handle_ip (sr : SrInstance) (p : Packet) (len : Nat)
    (iface : String) (now : Nat) : RouterAction :=
  if len - sizeof_eth < sizeof_ip then .drop
  else if p.ip.ip_sum ≠ cksumBytes (ipHdrBytes { p.ip with ip_sum := 0 }) then
    .drop
  else if sr.if_list.any (fun i => i.ip == p.ip.ip_dst) then
    if p.ip.ip_p = ip_protocol_icmp then
      .echoReply (sr_send_icmp p 0 0 (sr_get_interface sr iface)) iface
    else
      .icmpT3 3 3 (sr_send_icmp_t3 p 3 3 (sr_get_interface sr iface)) iface
  else
    let ttl1 := (p.ip.ip_ttl + 255) % 256
    let p1 := { p with ip := { p.ip with ip_ttl := ttl1 } }
    if ttl1 = 0 then
      .icmpT3 11 0 (sr_send_icmp_t3 p1 11 0 (sr_get_interface sr iface)) iface
    else
      let p2 := sr_transit_rewrite p
      match sr_rt_for_dst sr p2.ip.ip_dst with
      | none =>
        .icmpT3 3 0 (sr_send_icmp_t3 p2 3 0 (sr_get_interface sr iface)) iface
      | some out_rt =>
        let if_entry := sr_get_interface sr out_rt.interface
        match sr_arpcache_lookup sr.cache out_rt.gw now with
        | some mac =>
          .forward { p2 with
            eth := { p2.eth with
              ether_shost := if_entry.addr, ether_dhost := mac } }
            out_rt.interface
        | none => .queueArp out_rt.gw p2 out_rt.interface

/-- A matching route with mask 12 (the wider prefix). -/
def rtWide : SrRtEntry := { dest := 4, gw := 9, mask := 12, interface := "eth0" }

/-- A matching route with mask 15 (the longer prefix). -/
def rtNarrow : SrRtEntry := { dest := 5, gw := 8, mask := 15, interface := "eth1" }

/-- A router with the two routes above. -/
def lpmSr : SrInstance :=
  { if_list := [], routing_table := [rtWide, rtNarrow], cache := [] }

/-- First-inserted default route (mask 0). -/
def rtDefaultA : SrRtEntry := { dest := 0, gw := 101, mask := 0, interface := "eth0" }

/-- Second-inserted default route (mask 0). -/
def rtDefaultB : SrRtEntry := { dest := 0, gw := 102, mask := 0, interface := "eth1" }

/-- A router with two zero-mask default routes. -/
def twoDefaultsSr : SrInstance :=
  { if_list := [], routing_table := [rtDefaultA, rtDefaultB], cache := [] }

/-- The router's single interface for the concrete transit scenario. -/
def eth0If : SrIface := { name := "eth0", ip := 10, addr := 100 }

/-- A default route whose gateway field is zero. -/
def zeroGwRt : SrRtEntry := { dest := 0, gw := 0, mask := 0, interface := "eth0" }

/-- A router with the zero-gateway default route and an ARP cache that
resolves the packet's destination 5 (but not 0). -/
def zeroGwSr : SrInstance :=
  { if_list := [eth0If], routing_table := [zeroGwRt],
    cache := [{ ip := 5, mac := 204, added := 0 }] }

/-- Transit IP header to destination 5 before checksumming. -/
def transitIp0 : IpHdr :=
  { ip_hl := 5, ip_v := 4, ip_tos := 0, ip_len := 40, ip_id := 1,
    ip_off := 0, ip_ttl := 5, ip_p := 6, ip_sum := 0, ip_src := 7,
    ip_dst := 5 }

/-- The transit IP header with a valid checksum. -/
def transitIp : IpHdr :=
  { transitIp0 with ip_sum := cksumBytes (ipHdrBytes transitIp0) }

/-- A transit packet to destination 5 (not addressed to the router). -/
def transitPkt : Packet :=
  { eth := { ether_dhost := 100, ether_shost := 50, ether_type := 2048 },
    ip := transitIp,
    icmp := { icmp_type := 0, icmp_code := 0, icmp_sum := 0, unused := 0,
              next_mtu := 0, data := [] },
    ipPayload := [] }

/-- The interface receiving the concrete ICMP packets. -/
def echoIf : SrIface := { name := "eth1", ip := 22, addr := 111 }

/-- A router owning only `echoIf`. -/
def echoSr : SrInstance :=
  { if_list := [echoIf], routing_table := [], cache := [] }

/-- IP header of the concrete Echo Request, before checksumming. -/
def echoIp0 : IpHdr :=
  { ip_hl := 5, ip_v := 4, ip_tos := 0, ip_len := 84, ip_id := 7,
    ip_off := 0, ip_ttl := 64, ip_p := 1, ip_sum := 0, ip_src := 33,
    ip_dst := 22 }

/-- The Echo Request IP header with a valid checksum. -/
def echoIp : IpHdr :=
  { echoIp0 with ip_sum := cksumBytes (ipHdrBytes echoIp0) }

/-- A concrete ICMP Echo Request (type 8) addressed to the router. -/
def echoPkt : Packet :=
  { eth := { ether_dhost := 111, ether_shost := 55, ether_type := 2048 },
    ip := echoIp,
    icmp := { icmp_type := 8, icmp_code := 0, icmp_sum := 99,
              unused := 1234, next_mtu := 0, data := [9, 8, 7] },
    ipPayload := [8, 0, 0, 99, 4, 210] }

/-- A concrete inbound ICMP Destination Unreachable (type 3, code 1)
addressed to the router — not an Echo Request. -/
def icmpErrPkt : Packet :=
  { eth := { ether_dhost := 111, ether_shost := 66, ether_type := 2048 },
    ip := echoIp,
    icmp := { icmp_type := 3, icmp_code := 1, icmp_sum := 17,
              unused := 0, next_mtu := 1500, data := [1, 2] },
    ipPayload := [3, 1, 0, 17] }

/-! ## Claim C1: ctcp_output delivery, and its ACK behaviour -/

/-- Loop invariant lemma for `ctcp_output_loop` on a contiguous chain:
the loop delivers a prefix of the queue, stops only at the buffer-space
check, and reports `has_output`/early-return flags accordingly. -/
theorem ctcp_output_loop_chain (B : Nat → Nat) (l : List Seg) (a k : Nat)
    (has : Bool) (hchain : chainFrom a l)
    (hbound : a + (l.map segAdvance).sum < 2 ^ 32) :
    ∃ j, j ≤ l.length ∧
      ctcp_output_loop B l a k has =
        (a + ((l.take j).map segAdvance).sum, l.drop j,
         ((l.take j).map segWrites).flatten,
         (has || decide (0 < j)), decide (j < l.length)) ∧
      ∀ h : j < l.length, B (k + j) < segDataLen (l.get ⟨j, h⟩) := by
  induction l generalizing a k has with
  | nil =>
    exact ⟨0, by simp, by simp [ctcp_output_loop], by simp⟩
  | cons seg rest ih =>
    obtain ⟨hseq, hrest⟩ := hchain
    subst hseq
    by_cases hbuf : B k < segDataLen seg
    · refine ⟨0, by simp, ?_, ?_⟩
      · simp [ctcp_output_loop, hbuf]
      · intro _
        simpa using hbuf
    · have hadv : seg.seqno + segAdvance seg + (rest.map segAdvance).sum < 2 ^ 32 := by
        simp only [List.map_cons, List.sum_cons] at hbound
        omega
      obtain ⟨j, hj, hloop, hB⟩ := ih (seg.seqno + segAdvance seg) (k + 1) true hrest hadv
      have hstep : ctcp_output_loop B (seg :: rest) seg.seqno k has =
          (seg.seqno + segAdvance seg + ((rest.take j).map segAdvance).sum,
           rest.drop j, segWrites seg ++ ((rest.take j).map segWrites).flatten,
           true, decide (j < rest.length)) := by
        have hlt : seg.seqno + segAdvance seg < 2 ^ 32 := by omega
        have hmod : (if segHasFIN seg = true
              then ((seg.seqno + segDataLen seg) % 2 ^ 32 + 1) % 2 ^ 32
              else (seg.seqno + segDataLen seg) % 2 ^ 32)
            = seg.seqno + segAdvance seg := by
          by_cases hfin : segHasFIN seg <;>
            simp [segAdvance, hfin] at hlt ⊢ <;>
            omega
        simp only [ctcp_output_loop, if_pos rfl, if_neg hbuf]
        rw [hmod, hloop]
        simp [segWrites]
      refine ⟨j + 1, Nat.succ_le_succ hj, ?_, ?_⟩
      · rw [hstep]
        simp [List.take_succ_cons, List.drop_succ_cons, Nat.add_assoc]
      · intro h
        have h2 : j < rest.length := Nat.succ_lt_succ_iff.mp (by simpa using h)
        have hb := hB h2
        have harith : k + 1 + j = k + (j + 1) := by omega
        rw [harith] at hb
        simpa using hb

/-- C1 (amended): on an unoutput queue whose seqnos form a contiguous
chain starting at the current ackno (the shape produced by a permutation
of a contiguous range of seqnos), `ctcp_output` delivers a prefix of the
queue to the sink exactly once and in seqno order, advancing `ackno` by
each payload length plus one (with a zero-byte EOF write) for FIN; it
stops only when the sink's buffer space is smaller than the head's
payload length; and it sends exactly one pure cumulative ACK if and only
if at least one segment was delivered AND the whole queue was drained —
when the loop stops early for lack of buffer space, the early `return`
skips the ACK even though segments were delivered. -/
theorem ctcp_output_chain_delivery (st : CState) (B : Nat → Nat)
    (hwf : ∀ s ∈ st.unoutput, ctcpHdrSize ≤ s.len)
    (hchain : chainFrom st.ackno st.unoutput)
    (hbound : st.ackno + (st.unoutput.map segAdvance).sum < 2 ^ 32) :
    ∃ k, k ≤ st.unoutput.length ∧
      (ctcp_output st B).writes = ((st.unoutput.take k).map segWrites).flatten ∧
      (ctcp_output st B).st.unoutput = st.unoutput.drop k ∧
      (ctcp_output st B).st.ackno
        = st.ackno + ((st.unoutput.take k).map segAdvance).sum ∧
      (∀ h : k < st.unoutput.length, B k < segDataLen (st.unoutput.get ⟨k, h⟩)) ∧
      (ctcp_output st B).sent
        = (if 0 < k ∧ k = st.unoutput.length
           then [send_ack_segment (ctcp_output st B).st] else []) := by
  obtain ⟨j, hj, hloop, hB⟩ :=
    ctcp_output_loop_chain B st.unoutput st.ackno 0 false hchain hbound
  simp only [Nat.zero_add] at hB
  refine ⟨j, hj, ?_, ?_, ?_, hB, ?_⟩
  · simp [ctcp_output, hloop]
  · simp [ctcp_output, hloop]
  · simp [ctcp_output, hloop]
  · by_cases h1 : 0 < j
    · by_cases h2 : j < st.unoutput.length
      · have hne : j ≠ st.unoutput.length := Nat.ne_of_lt h2
        simp [ctcp_output, hloop, h1, h2, hne]
      · have heq : j = st.unoutput.length := Nat.le_antisymm hj (Nat.le_of_not_lt h2)
        simp [ctcp_output, hloop, h1, h2, heq]
    · simp [ctcp_output, hloop, h1]

/-- C1 witness: the amended theorem applied to the concrete chain state
with ample buffer space. -/
theorem ctcp_output_chain_delivery_witness :
    ∃ k, k ≤ chainSt.unoutput.length ∧
      (ctcp_output chainSt (fun _ => 100)).writes
        = ((chainSt.unoutput.take k).map segWrites).flatten ∧
      (ctcp_output chainSt (fun _ => 100)).st.unoutput
        = chainSt.unoutput.drop k ∧
      (ctcp_output chainSt (fun _ => 100)).st.ackno
        = chainSt.ackno + ((chainSt.unoutput.take k).map segAdvance).sum ∧
      (∀ h : k < chainSt.unoutput.length,
        (fun _ => 100) k < segDataLen (chainSt.unoutput.get ⟨k, h⟩)) ∧
      (ctcp_output chainSt (fun _ => 100)).sent
        = (if 0 < k ∧ k = chainSt.unoutput.length
           then [send_ack_segment (ctcp_output chainSt (fun _ => 100)).st]
           else []) :=
  ctcp_output_chain_delivery chainSt (fun _ => 100)
    (by decide) (by decide) (by decide)

/-- C1 counterexample: with buffer space 1 on every `conn_bufspace`
call, `ctcp_output` on the chain state delivers the first segment's
payload but sends no ACK at all (the early `return` skips
`send_ack_segment`), refuting "sends exactly one pure cumulative ACK if
and only if at least one segment was delivered". -/
theorem ctcp_output_ack_not_iff_delivered :
    chainFrom chainSt.ackno chainSt.unoutput ∧
    (ctcp_output chainSt (fun _ => 1)).writes = [Write.data [97]] ∧
    (ctcp_output chainSt (fun _ => 1)).sent = [] ∧
    ¬ ((ctcp_output chainSt (fun _ => 1)).sent ≠ []
        ↔ (ctcp_output chainSt (fun _ => 1)).writes ≠ []) := by
  decide

/-- The function `ctcp_output` never touches the unacked queue or the
FIN-handshake flags. -/
theorem ctcp_output_preserves (st : CState) (B : Nat → Nat) :
    (ctcp_output st B).st.unacked = st.unacked ∧
    (ctcp_output st B).st.receive_ack_fin = st.receive_ack_fin ∧
    (ctcp_output st B).st.receive_fin = st.receive_fin ∧
    (ctcp_output st B).st.send_fin = st.send_fin := by
  simp [ctcp_output]

/-- On a strictly seqno-sorted queue, the head-drop loop removes
exactly the segments whose seqno is below the ackno. -/
theorem dropAcked_sorted (l : List Seg) (a : Nat)
    (hs : l.Pairwise (fun x y => x.seqno < y.seqno)) :
    dropAcked l a = l.filter (fun s => decide (a ≤ s.seqno)) := by
  induction l with
  | nil => rfl
  | cons s rest ih =>
    obtain ⟨hall, hrest⟩ := List.pairwise_cons.mp hs
    by_cases h : s.seqno < a
    · have : ¬ (a ≤ s.seqno) := by omega
      simp [dropAcked, h, this, ih hrest]
    · have h1 : a ≤ s.seqno := by omega
      have h2 : rest.filter (fun s => decide (a ≤ s.seqno)) = rest :=
        List.filter_eq_self.mpr (fun t ht => by
          have := hall t ht
          simp
          omega)
      simp [dropAcked, h, h1, h2]

/-- C4 (amended): for an uncorrupted segment whose seqno is below the
current ackno: if it carries payload or FIN, `ctcp_receive` replies
with exactly one pure ACK carrying the current ackno and changes
nothing else; otherwise the segment is NOT dropped silently — it falls
through to normal processing, so a set ACK flag still prunes the
unacked queue and (when a FIN was sent) sets the FIN-ACKed flag. -/
theorem ctcp_receive_stale_handling (st : CState) (seg : Seg) (B : Nat → Nat)
    (hlen : ctcpHdrSize ≤ seg.len)
    (hstale : seg.seqno < st.ackno) :
    ((0 < segDataLen seg ∨ segHasFIN seg = true) →
      ctcp_receive st seg false B = ⟨st, [send_ack_segment st], []⟩) ∧
    (segDataLen seg = 0 → segHasFIN seg = false →
      st.unoutput.any (fun u => u.seqno == seg.seqno) = false →
      segHasACK seg = true →
      (ctcp_receive st seg false B).st.unacked = dropAcked st.unacked seg.ackno ∧
      (ctcp_receive st seg false B).st.receive_ack_fin
        = (st.send_fin || st.receive_ack_fin) ∧
      (ctcp_receive st seg false B).st.receive_fin = st.receive_fin) := by
  constructor
  · intro h
    simp [ctcp_receive, hstale, h]
  · intro h0 hfin hdup hack
    simp only [ctcp_receive, Bool.false_eq_true, if_false, h0, hfin,
      Nat.lt_irrefl, or_self, and_false, if_neg, hdup, hack, if_true,
      ctcp_output]
    refine ⟨trivial, ?_, trivial⟩
    cases hsf : st.send_fin <;> simp

/-- C4 witness: the amended theorem at the stale one-byte data segment
received by the FIN-waiting connection. -/
theorem ctcp_receive_stale_handling_witness :
    ((0 < segDataLen staleDataSeg ∨ segHasFIN staleDataSeg = true) →
      ctcp_receive finWaitSt staleDataSeg false (fun _ => 9)
        = ⟨finWaitSt, [send_ack_segment finWaitSt], []⟩) ∧
    (segDataLen staleDataSeg = 0 → segHasFIN staleDataSeg = false →
      finWaitSt.unoutput.any (fun u => u.seqno == staleDataSeg.seqno) = false →
      segHasACK staleDataSeg = true →
      (ctcp_receive finWaitSt staleDataSeg false (fun _ => 9)).st.unacked
        = dropAcked finWaitSt.unacked staleDataSeg.ackno ∧
      (ctcp_receive finWaitSt staleDataSeg false (fun _ => 9)).st.receive_ack_fin
        = (finWaitSt.send_fin || finWaitSt.receive_ack_fin) ∧
      (ctcp_receive finWaitSt staleDataSeg false (fun _ => 9)).st.receive_fin
        = finWaitSt.receive_fin) :=
  ctcp_receive_stale_handling finWaitSt staleDataSeg (fun _ => 9)
    (by decide) (by decide)

/-- C4 counterexample: a stale segment with neither payload nor FIN is
not dropped silently: its ACK field is processed, pruning the unacked
queue and setting the FIN-ACKed flag, so the connection state changes
(the claim asserts the state is unchanged). -/
theorem ctcp_receive_stale_pure_ack_changes_state :
    staleAckSeg.seqno < finWaitSt.ackno ∧
    segDataLen staleAckSeg = 0 ∧ segHasFIN staleAckSeg = false ∧
    (ctcp_receive finWaitSt staleAckSeg false (fun _ => 100)).sent = [] ∧
    (ctcp_receive finWaitSt staleAckSeg false (fun _ => 100)).st ≠ finWaitSt := by
  decide

/-- C5 (amended): when `ctcp_receive` processes an uncorrupted segment
with the ACK flag set (one that passes the stale and duplicate gates),
it removes from the head of the strictly seqno-sorted unacked queue
exactly the segments whose seqno is below the received ackno — and it
sets the FIN-ACKed flag whenever a FIN has been sent, REGARDLESS of
whether the received ackno covers the FIN's seqno. -/
theorem ctcp_receive_ack_processing (st : CState) (seg : Seg) (B : Nat → Nat)
    (hack : segHasACK seg = true)
    (hnostale : ¬ (seg.seqno < st.ackno ∧
      (0 < segDataLen seg ∨ segHasFIN seg = true)))
    (hnodup : st.unoutput.any (fun u => u.seqno == seg.seqno) = false)
    (hsorted : st.unacked.Pairwise (fun x y => x.seqno < y.seqno)) :
    (ctcp_receive st seg false B).st.unacked
      = st.unacked.filter (fun s => decide (seg.ackno ≤ s.seqno)) ∧
    (ctcp_receive st seg false B).st.receive_ack_fin
      = (st.send_fin || st.receive_ack_fin) := by
  have hdrop := dropAcked_sorted st.unacked seg.ackno hsorted
  by_cases hstale : seg.seqno < st.ackno
  · have hins : ¬ (0 < segDataLen seg ∨ segHasFIN seg = true) :=
      fun h => hnostale ⟨hstale, h⟩
    have hfin : segHasFIN seg = false := by
      cases h : segHasFIN seg
      · rfl
      · exact absurd (Or.inr h) hins
    have hdata : ¬ 0 < segDataLen seg := fun h => hins (Or.inl h)
    simp [ctcp_receive, hnodup, hack, hfin, hdata, hstale, ctcp_output, hdrop]
  · by_cases hfin : segHasFIN seg = true <;>
      by_cases hdata : 0 < segDataLen seg <;>
      simp [ctcp_receive, hnodup, hack, hfin, hdata, hstale, ctcp_output, hdrop]

/-- C5 witness: the amended theorem at the FIN-waiting connection
receiving `nonStaleAck`: the data segment (seqno 3 < 7) is dropped from
the head of unacked, the FIN (seqno 10) is kept, and FIN-ACKed is set. -/
theorem ctcp_receive_ack_processing_witness :
    (ctcp_receive finWaitSt nonStaleAck false (fun _ => 100)).st.unacked
      = finWaitSt.unacked.filter (fun s => decide (nonStaleAck.ackno ≤ s.seqno)) ∧
    (ctcp_receive finWaitSt nonStaleAck false (fun _ => 100)).st.receive_ack_fin
      = (finWaitSt.send_fin || finWaitSt.receive_ack_fin) :=
  ctcp_receive_ack_processing finWaitSt nonStaleAck (fun _ => 100)
    (by decide) (by decide) (by decide) (by decide)

/-- C5 counterexample: the connection has sent a FIN with seqno 10 that
is still unacked, and receives an ACK whose ackno 7 does not cover the
FIN's seqno; the code nevertheless sets the FIN-ACKed flag, refuting
"an ACK that does not cover the FIN's seqno leaves FIN-ACKed false". -/
theorem ctcp_receive_fin_acked_without_coverage :
    finWaitSt.send_fin = true ∧
    finSeg10 ∈ finWaitSt.unacked ∧ segHasFIN finSeg10 = true ∧
    nonStaleAck.ackno ≤ finSeg10.seqno ∧
    finWaitSt.receive_ack_fin = false ∧
    (ctcp_receive finWaitSt nonStaleAck false (fun _ => 100)).st.receive_ack_fin
      = true := by
  decide

/-! ## Claim C9: on_air and the ctcp_read guards -/

/-- C9 (amended): for a non-empty unacked queue, `on_air` returns
((last.seqno + last.data_len) − first.seqno) reduced modulo 2^16 — the
`uint16_t` accumulator truncates the exact value — and `ctcp_read`
sends no new segment and changes nothing when that value reaches the
send window or a FIN has already been sent. -/
theorem on_air_formula_and_read_guard (st : CState) (inp : ConnInput)
    (now : Nat) (front back : Seg) (mid : List Seg)
    (hq : st.unacked = front :: mid)
    (hback : mid.getLastD front = back)
    (hfb : front.seqno ≤ back.seqno)
    (hb32 : back.seqno < 2 ^ 32)
    (hlen : ctcpHdrSize ≤ back.len) :
    on_air st = (back.seqno + segDataLen back - front.seqno) % 2 ^ 16 ∧
    ((st.send_window ≤ on_air st ∨ st.send_fin = true) →
      ctcp_read st inp now = (st, [])) := by
  constructor
  · unfold on_air
    rw [hq]
    simp only [hback]
    simp only [segDataLen, ctcpHdrSize] at hlen ⊢
    omega
  · intro h
    by_cases hw : st.send_window ≤ on_air st
    · simp [ctcp_read, hw]
    · have hfin : st.send_fin = true := by
        rcases h with h | h
        · exact absurd h hw
        · exact h
      simp [ctcp_read, hw, hfin]

/-- C9 witness: the amended theorem at the FIN-waiting connection:
on_air = (10 + 0) − 3 = 7, and since a FIN has been sent, `ctcp_read`
does nothing. -/
theorem on_air_formula_and_read_guard_witness :
    on_air finWaitSt
      = (finSeg10.seqno + segDataLen finSeg10 - dataSeg3.seqno) % 2 ^ 16 ∧
    ((finWaitSt.send_window ≤ on_air finWaitSt ∨ finWaitSt.send_fin = true) →
      ctcp_read finWaitSt (.avail [5]) 3 = (finWaitSt, [])) :=
  on_air_formula_and_read_guard finWaitSt (.avail [5]) 3 dataSeg3 finSeg10
    [finSeg10] (by decide) (by decide) (by decide) (by decide) (by decide)

/-- C9 counterexample: with 65536 bytes in flight the `uint16_t`
accumulator wraps and `on_air` returns 0, not the exact value
(last.seqno + last.data_len) − first.seqno = 65536. -/
theorem on_air_wraps_not_exact :
    wrapSt.unacked = wrapFront :: [wrapBack] ∧
    [wrapBack].getLastD wrapFront = wrapBack ∧
    wrapBack.seqno + segDataLen wrapBack - wrapFront.seqno = 65536 ∧
    on_air wrapSt = 0 ∧
    on_air wrapSt ≠ wrapBack.seqno + segDataLen wrapBack - wrapFront.seqno := by
  decide

/-! ## Claim C7: PROBE_RTT holding time -/

/-- C7: the exit comparison `probe_rtt_done_stamp >= current_time()` is
satisfied the moment PROBE_RTT is entered (the stamp is now + 200), so
a call of `bbr_update_min_rtt` from any state outside PROBE_RTT can
never leave the controller in PROBE_RTT: the mode is entered and exited
within the same call, never held for 200 ms.  This contradicts both the
claim and the source's own comment block (lines 220-225). -/
theorem bbr_probe_rtt_exits_immediately (bbr : BbrState) (s now r : Nat)
    (h : bbr.mode ≠ BbrMode.PROBE_RTT) :
    (bbr_update_min_rtt bbr s now r).mode ≠ BbrMode.PROBE_RTT := by
  have hreset : ∀ (b : BbrState), (bbr_reset_mode b r).mode ≠ BbrMode.PROBE_RTT := by
    intro b
    unfold bbr_reset_mode bbr_reset_startup_mode bbr_reset_probe_bw_mode
    split <;> simp
  simp only [bbr_update_min_rtt]
  split
  · split
    · split <;> simpa using hreset _
    · next h2 =>
      exact absurd ⟨rfl, Nat.le_add_left now bbr_probe_rtt_mode_ms⟩ h2
  · split
    · split <;> simpa using hreset _
    · exact h

/-- C7 witness: at time 1000 the concrete controller enters PROBE_RTT
(the saved exit deadline is 1200) yet the same call already leaves it
for STARTUP — 0 ms in PROBE_RTT rather than the claimed 200 ms. -/
theorem bbr_probe_rtt_exits_immediately_witness :
    probeSt.mode ≠ BbrMode.PROBE_RTT ∧
    (bbr_update_min_rtt probeSt 7 1000 0).mode ≠ BbrMode.PROBE_RTT ∧
    (bbr_update_min_rtt probeSt 7 1000 0).mode = BbrMode.STARTUP ∧
    (bbr_update_min_rtt probeSt 7 1000 0).probe_rtt_done_stamp = 1200 ∧
    (bbr_update_min_rtt probeSt 7 1000 0).prior_cwnd = probeSt.cwnd :=
  ⟨by decide, bbr_probe_rtt_exits_immediately probeSt 7 1000 0 (by decide),
   by decide, by decide, by decide⟩

/-! ## Claim C8: the PROBE_BW gain cycle -/

/-- C8: the gain table the source declares as
`{5 / 4, 3 / 4, 1, 1, 1, 1, 1, 1}` evaluates (by C integer division) to
`[1, 0, 1, 1, 1, 1, 1, 1]`, the high/drain/threshold "float" constants
likewise truncate to 2, 0 and 1; `bbr_advance_cycle_phase` steps the
cycle index modulo CYCLE_LEN − 1 = 7, so index 7 is never reached by
rotation and the index does NOT take every value in [0,8); on entry to
PROBE_BW the mode, cwnd_gain = 2 and the randomized index
CYCLE_LEN − 1 − rand() % 7 are as the claim states (the entry
pacing_gain is BBR_UNIT = 256, not a table value). -/
theorem bbr_gain_cycle_defects :
    bbr_pacing_gain = [1, 0, 1, 1, 1, 1, 1, 1] ∧
    bbr_high_gain = 2 ∧ bbr_drain_gain = 0 ∧ bbr_full_bw_thresh = 1 ∧
    (∀ b : BbrState, (bbr_advance_cycle_phase b).cycle_idx < CYCLE_LEN - 1) ∧
    (∀ (b : BbrState) (r : Nat),
      (bbr_reset_probe_bw_mode b r).mode = BbrMode.PROBE_BW ∧
      (bbr_reset_probe_bw_mode b r).cwnd_gain = 2 ∧
      (bbr_reset_probe_bw_mode b r).pacing_gain = BBR_UNIT ∧
      (bbr_reset_probe_bw_mode b r).cycle_idx = CYCLE_LEN - 1 - r % 7) := by
  refine ⟨by decide, by decide, by decide, by decide, ?_, ?_⟩
  · intro b
    exact Nat.mod_lt _ (by decide)
  · intro b r
    exact ⟨rfl, rfl, rfl, rfl⟩

/-! ## Claim C2: longest-prefix-match routing lookup -/

/-- Once the scan holds a candidate, it never returns none. -/
theorem sr_rt_loop_some_ne_none (dst : Nat) (l : List SrRtEntry)
    (b : SrRtEntry) (m : Nat) :
    sr_rt_for_dst_loop dst l (some b) m ≠ none := by
  induction l generalizing b m with
  | nil => simp [sr_rt_for_dst_loop]
  | cons e rest ih =>
    simp only [sr_rt_for_dst_loop]
    split
    · exact ih e e.mask
    · exact ih b m

/-- The scan returns none exactly when no entry matches. -/
theorem sr_rt_loop_none_iff (dst : Nat) (l : List SrRtEntry) :
    sr_rt_for_dst_loop dst l none 0 = none ↔ ∀ e ∈ l, ¬ rtMatches e dst := by
  induction l with
  | nil => simp [sr_rt_for_dst_loop]
  | cons e rest ih =>
    simp only [sr_rt_for_dst_loop]
    by_cases hm : rtMatches e dst
    · rw [if_pos ⟨hm, by simp⟩]
      constructor
      · intro h
        exact absurd h (sr_rt_loop_some_ne_none dst rest e e.mask)
      · intro h
        exact absurd hm (h e (by simp))
    · rw [if_neg (fun hc => hm hc.1), ih]
      simp [hm]

/-- The scan's result matches, comes from the accumulator or the list,
and its mask dominates the accumulator and every matching entry. -/
theorem sr_rt_loop_max (dst : Nat) (l : List SrRtEntry) :
    ∀ (best : Option SrRtEntry) (longest : Nat),
    (∀ b, best = some b → longest = b.mask ∧ rtMatches b dst) →
    ∀ E, sr_rt_for_dst_loop dst l best longest = some E →
      rtMatches E dst ∧ (best = some E ∨ E ∈ l) ∧ longest ≤ E.mask ∧
      ∀ e ∈ l, rtMatches e dst → e.mask ≤ E.mask := by
  induction l with
  | nil =>
    intro best longest hinv E hE
    simp only [sr_rt_for_dst_loop] at hE
    obtain ⟨h1, h2⟩ := hinv E hE
    exact ⟨h2, Or.inl hE, le_of_eq h1, by simp⟩
  | cons e rest ih =>
    intro best longest hinv E hE
    simp only [sr_rt_for_dst_loop] at hE
    by_cases hc : e.mask &&& dst = e.dest ∧ (longest = 0 ∨ e.mask > longest)
    · rw [if_pos hc] at hE
      obtain ⟨hm, ho, hle, hall⟩ := ih (some e) e.mask
        (by
          rintro b hb
          cases Option.some.inj hb
          exact ⟨rfl, hc.1⟩) E hE
      refine ⟨hm, ?_, ?_, ?_⟩
      · rcases ho with h | h
        · exact Or.inr (by rw [← Option.some.inj h]; exact List.mem_cons_self e rest)
        · exact Or.inr (List.mem_cons_of_mem _ h)
      · rcases hc.2 with h0 | hgt <;> omega
      · intro e' he' hm'
        rcases List.mem_cons.mp he' with rfl | h'
        · exact hle
        · exact hall e' h' hm'
    · rw [if_neg hc] at hE
      obtain ⟨hm, ho, hle, hall⟩ := ih best longest hinv E hE
      refine ⟨hm, ?_, hle, ?_⟩
      · rcases ho with h | h
        · exact Or.inl h
        · exact Or.inr (List.mem_cons_of_mem _ h)
      · intro e' he' hm'
        rcases List.mem_cons.mp he' with rfl | h'
        · have hno : ¬ (longest = 0 ∨ e'.mask > longest) := fun h2 => hc ⟨hm', h2⟩
          push_neg at hno
          omega
        · exact hall e' h' hm'

/-- When the winning mask is positive, the winner either was the
accumulator or sits after only strictly smaller matching masks. -/
theorem sr_rt_loop_first_among_ties (dst : Nat) (l : List SrRtEntry) :
    ∀ (best : Option SrRtEntry) (longest : Nat) (E : SrRtEntry),
    sr_rt_for_dst_loop dst l best longest = some E → 0 < E.mask →
    best = some E ∨
    ∃ l1 l2, l = l1 ++ E :: l2 ∧ longest < E.mask ∧
      ∀ e ∈ l1, rtMatches e dst → e.mask < E.mask := by
  induction l with
  | nil =>
    intro best longest E hE _
    left
    simpa [sr_rt_for_dst_loop] using hE
  | cons e rest ih =>
    intro best longest E hE hpos
    simp only [sr_rt_for_dst_loop] at hE
    by_cases hc : e.mask &&& dst = e.dest ∧ (longest = 0 ∨ e.mask > longest)
    · rw [if_pos hc] at hE
      rcases ih (some e) e.mask E hE hpos with h | ⟨l1, l2, hsplit, hlt, hprior⟩
      · cases Option.some.inj h
        right
        refine ⟨[], rest, rfl, ?_, by simp⟩
        rcases hc.2 with h0 | hgt <;> omega
      · right
        refine ⟨e :: l1, l2, by simp [hsplit], ?_, ?_⟩
        · rcases hc.2 with h0 | hgt <;> omega
        · intro e' he' hm'
          rcases List.mem_cons.mp he' with rfl | h'
          · exact hlt
          · exact hprior e' h' hm'
    · rw [if_neg hc] at hE
      rcases ih best longest E hE hpos with h | ⟨l1, l2, hsplit, hlt, hprior⟩
      · exact Or.inl h
      · right
        refine ⟨e :: l1, l2, by simp [hsplit], hlt, ?_⟩
        intro e' he' hm'
        rcases List.mem_cons.mp he' with rfl | h'
        · have hno : ¬ (longest = 0 ∨ e'.mask > longest) := fun h2 => hc ⟨hm', h2⟩
          push_neg at hno
          omega
        · exact hprior e' h' hm'

/-- When the winning mask is zero, the winner either was the
accumulator with nothing matching afterwards, or is followed by no
matching entry: the LAST matching entry wins a zero-mask tie. -/
theorem sr_rt_loop_zero_mask_last (dst : Nat) (l : List SrRtEntry) :
    ∀ (best : Option SrRtEntry) (longest : Nat) (E : SrRtEntry),
    (∀ b, best = some b → longest = b.mask) →
    sr_rt_for_dst_loop dst l best longest = some E → E.mask = 0 →
    (best = some E ∧ ∀ e ∈ l, ¬ rtMatches e dst) ∨
    ∃ l1 l2, l = l1 ++ E :: l2 ∧ ∀ e ∈ l2, ¬ rtMatches e dst := by
  induction l with
  | nil =>
    intro best longest E _ hE _
    left
    exact ⟨by simpa [sr_rt_for_dst_loop] using hE, by simp⟩
  | cons e rest ih =>
    intro best longest E hinv hE hz
    simp only [sr_rt_for_dst_loop] at hE
    by_cases hc : e.mask &&& dst = e.dest ∧ (longest = 0 ∨ e.mask > longest)
    · rw [if_pos hc] at hE
      rcases ih (some e) e.mask E
          (by
            rintro b hb
            cases Option.some.inj hb
            rfl) hE hz with ⟨hbe, hnone⟩ | ⟨l1, l2, hsplit, hl2⟩
      · cases Option.some.inj hbe
        right
        exact ⟨[], rest, rfl, hnone⟩
      · right
        exact ⟨e :: l1, l2, by simp [hsplit], hl2⟩
    · rw [if_neg hc] at hE
      rcases ih best longest E hinv hE hz with ⟨hbe, hnone⟩ | ⟨l1, l2, hsplit, hl2⟩
      · left
        refine ⟨hbe, ?_⟩
        intro e' he'
        rcases List.mem_cons.mp he' with rfl | h'
        · intro hm'
          have h0 : longest = 0 := by rw [hinv E hbe, hz]
          exact hc ⟨hm', Or.inl h0⟩
        · exact hnone e' h'
      · right
        exact ⟨e :: l1, l2, by simp [hsplit], hl2⟩

/-- C2 (amended): `sr_rt_for_dst` returns none exactly when no entry
matches; a returned entry matches, belongs to the table, and no
matching entry has a strictly larger mask; among matching entries tying
for a POSITIVE largest mask the first-inserted one is returned, but
when the largest matching mask is ZERO the last-inserted matching entry
is returned (the `longest_mask == 0` shortcut re-adopts every matching
zero-mask entry). -/
theorem sr_rt_for_dst_lpm (sr : SrInstance) (dst : Nat) :
    (sr_rt_for_dst sr dst = none ↔
      ∀ e ∈ sr.routing_table, ¬ rtMatches e dst) ∧
    ∀ E, sr_rt_for_dst sr dst = some E →
      rtMatches E dst ∧ E ∈ sr.routing_table ∧
      (∀ e ∈ sr.routing_table, rtMatches e dst → e.mask ≤ E.mask) ∧
      (0 < E.mask → ∃ l1 l2, sr.routing_table = l1 ++ E :: l2 ∧
        ∀ e ∈ l1, rtMatches e dst → e.mask < E.mask) ∧
      (E.mask = 0 → ∃ l1 l2, sr.routing_table = l1 ++ E :: l2 ∧
        ∀ e ∈ l2, ¬ rtMatches e dst) := by
  constructor
  · exact sr_rt_loop_none_iff dst sr.routing_table
  · intro E hE
    obtain ⟨hm, ho, _, hall⟩ :=
      sr_rt_loop_max dst sr.routing_table none 0 (by simp) E hE
    have hmem : E ∈ sr.routing_table := by
      rcases ho with h | h
      · cases h
      · exact h
    refine ⟨hm, hmem, hall, ?_, ?_⟩
    · intro hpos
      rcases sr_rt_loop_first_among_ties dst sr.routing_table none 0 E hE hpos
        with h | ⟨l1, l2, hs, _, hp⟩
      · cases h
      · exact ⟨l1, l2, hs, hp⟩
    · intro hz
      rcases sr_rt_loop_zero_mask_last dst sr.routing_table none 0 E
          (by simp) hE hz with ⟨h, _⟩ | ⟨l1, l2, hs, hl2⟩
      · cases h
      · exact ⟨l1, l2, hs, hl2⟩

/-- C2 witness: on the concrete two-route table both entries match
destination 5 and the longest mask (15) wins; the amended theorem
applied at that table. -/
theorem sr_rt_for_dst_lpm_witness :
    sr_rt_for_dst lpmSr 5 = some rtNarrow ∧
    ((sr_rt_for_dst lpmSr 5 = none ↔
        ∀ e ∈ lpmSr.routing_table, ¬ rtMatches e 5) ∧
      ∀ E, sr_rt_for_dst lpmSr 5 = some E →
        rtMatches E 5 ∧ E ∈ lpmSr.routing_table ∧
        (∀ e ∈ lpmSr.routing_table, rtMatches e 5 → e.mask ≤ E.mask) ∧
        (0 < E.mask → ∃ l1 l2, lpmSr.routing_table = l1 ++ E :: l2 ∧
          ∀ e ∈ l1, rtMatches e 5 → e.mask < E.mask) ∧
        (E.mask = 0 → ∃ l1 l2, lpmSr.routing_table = l1 ++ E :: l2 ∧
          ∀ e ∈ l2, ¬ rtMatches e 5)) :=
  ⟨by decide, sr_rt_for_dst_lpm lpmSr 5⟩

/-- C2 counterexample: both zero-mask defaults match destination 5 with
equal (largest) mask, yet `sr_rt_for_dst` returns the SECOND-inserted
entry, refuting "among matching entries whose masks tie for largest,
the first-inserted entry is returned". -/
theorem sr_rt_for_dst_zero_mask_tie_last_wins :
    rtMatches rtDefaultA 5 ∧ rtMatches rtDefaultB 5 ∧
    rtDefaultA.mask = rtDefaultB.mask ∧
    sr_rt_for_dst twoDefaultsSr 5 = some rtDefaultB ∧
    rtDefaultB ≠ rtDefaultA := by
  decide

/-! ## Claim C3: the forwarding next-hop ARP key -/

/-- C3 (amended): when a transit packet finds a route, the address the
code hands to the ARP cache — and, on a miss, the key the packet copy
is queued under — is ALWAYS the route's gateway field, even when the
gateway is zero; there is no fallback to the packet's destination IP. -/
theorem sr_handle_ip_next_hop_is_gateway (sr : SrInstance) (p : Packet)
    (len now : Nat) (iface : String) (rt : SrRtEntry)
    (hlen : ¬ (len - sizeof_eth < sizeof_ip))
    (hsum : p.ip.ip_sum = cksumBytes (ipHdrBytes { p.ip with ip_sum := 0 }))
    (hnotme : sr.if_list.any (fun i => i.ip == p.ip.ip_dst) = false)
    (httl : (p.ip.ip_ttl + 255) % 256 ≠ 0)
    (hrt : sr_rt_for_dst sr p.ip.ip_dst = some rt) :
    (∀ mac, sr_arpcache_lookup sr.cache rt.gw now = some mac →
      sr_handle_ip sr p len iface now
        = .forward { sr_transit_rewrite p with
            eth := { (sr_transit_rewrite p).eth with
              ether_shost := (sr_get_interface sr rt.interface).addr,
              ether_dhost := mac } } rt.interface) ∧
    (sr_arpcache_lookup sr.cache rt.gw now = none →
      sr_handle_ip sr p len iface now
        = .queueArp rt.gw (sr_transit_rewrite p) rt.interface) := by
  have hdst : (sr_transit_rewrite p).ip.ip_dst = p.ip.ip_dst := rfl
  constructor
  · intro mac hmac
    simp [sr_handle_ip, hlen, hsum, hnotme, httl, hdst, hrt, hmac]
  · intro hmac
    simp [sr_handle_ip, hlen, hsum, hnotme, httl, hdst, hrt, hmac]

/-- C3 witness: the amended theorem at the zero-gateway route; since
the cache has no entry for gateway 0, the concrete run takes the
queueing branch with key 0. -/
theorem sr_handle_ip_next_hop_is_gateway_witness :
    (∀ mac, sr_arpcache_lookup zeroGwSr.cache zeroGwRt.gw 1 = some mac →
      sr_handle_ip zeroGwSr transitPkt 60 "eth0" 1
        = .forward { sr_transit_rewrite transitPkt with
            eth := { (sr_transit_rewrite transitPkt).eth with
              ether_shost := (sr_get_interface zeroGwSr zeroGwRt.interface).addr,
              ether_dhost := mac } } zeroGwRt.interface) ∧
    (sr_arpcache_lookup zeroGwSr.cache zeroGwRt.gw 1 = none →
      sr_handle_ip zeroGwSr transitPkt 60 "eth0" 1
        = .queueArp zeroGwRt.gw (sr_transit_rewrite transitPkt)
            zeroGwRt.interface) :=
  sr_handle_ip_next_hop_is_gateway zeroGwSr transitPkt 60 1 "eth0" zeroGwRt
    (by decide) (by decide) (by decide) (by decide) (by decide)

/-- C3 counterexample: the selected route's gateway is zero and the
packet's destination 5 IS resolvable in the ARP cache, yet the router
queues the packet under key 0 instead of looking up / using the
destination, refuting "the packet's destination IP when the route's
gateway is zero". -/
theorem sr_handle_ip_zero_gateway_not_dst :
    zeroGwRt.gw = 0 ∧
    sr_rt_for_dst zeroGwSr transitPkt.ip.ip_dst = some zeroGwRt ∧
    sr_arpcache_lookup zeroGwSr.cache transitPkt.ip.ip_dst 1 = some 204 ∧
    sr_handle_ip zeroGwSr transitPkt 60 "eth0" 1
      = .queueArp 0 (sr_transit_rewrite transitPkt) "eth0" ∧
    (0 : Nat) ≠ transitPkt.ip.ip_dst := by
  decide

/-! ## Claims C6 and C10: local ICMP handling -/

/-- C6: for an ICMP Echo Request addressed to one of the router's
interface IPs, `sr_handle_ip` emits the `sr_send_icmp` reply with type
0, code 0, Ethernet destination = inbound Ethernet source, Ethernet
source = inbound interface MAC, IP source = inbound interface IP, IP
destination = original IP source, TTL 60, DF set, a valid IP header
checksum, and an ICMP checksum recomputed over the reply's entire ICMP
body. -/
theorem sr_handle_ip_echo_reply (sr : SrInstance) (p : Packet)
    (len now : Nat) (iface : String) (ifc : SrIface)
    (hlen : ¬ (len - sizeof_eth < sizeof_ip))
    (hsum : p.ip.ip_sum = cksumBytes (ipHdrBytes { p.ip with ip_sum := 0 }))
    (hme : sr.if_list.any (fun i => i.ip == p.ip.ip_dst) = true)
    (hicmp : p.ip.ip_p = ip_protocol_icmp)
    (hecho : p.icmp.icmp_type = 8)
    (hifc : sr_get_interface sr iface = ifc) :
    sr_handle_ip sr p len iface now = .echoReply (sr_send_icmp p 0 0 ifc) iface ∧
    (sr_send_icmp p 0 0 ifc).icmp.icmp_type = 0 ∧
    (sr_send_icmp p 0 0 ifc).icmp.icmp_code = 0 ∧
    (sr_send_icmp p 0 0 ifc).eth.ether_dhost = p.eth.ether_shost ∧
    (sr_send_icmp p 0 0 ifc).eth.ether_shost = ifc.addr ∧
    (sr_send_icmp p 0 0 ifc).ip.ip_src = ifc.ip ∧
    (sr_send_icmp p 0 0 ifc).ip.ip_dst = p.ip.ip_src ∧
    (sr_send_icmp p 0 0 ifc).ip.ip_ttl = 60 ∧
    (sr_send_icmp p 0 0 ifc).ip.ip_off = IP_DF ∧
    (sr_send_icmp p 0 0 ifc).ip.ip_sum
      = cksumBytes (ipHdrBytes { (sr_send_icmp p 0 0 ifc).ip with ip_sum := 0 }) ∧
    (sr_send_icmp p 0 0 ifc).icmp.icmp_sum
      = cksumBytes (icmpT3Bytes
          { (sr_send_icmp p 0 0 ifc).icmp with icmp_sum := 0 }) := by
  refine ⟨?_, ?_⟩
  · simp [sr_handle_ip, hlen, hsum, hme, hicmp, hifc]
  · simp [sr_send_icmp]

/-- C6 witness: the theorem at the concrete Echo Request received on
`eth1`. -/
theorem sr_handle_ip_echo_reply_witness :
    sr_handle_ip echoSr echoPkt 98 "eth1" 0
      = .echoReply (sr_send_icmp echoPkt 0 0 echoIf) "eth1" ∧
    (sr_send_icmp echoPkt 0 0 echoIf).icmp.icmp_type = 0 ∧
    (sr_send_icmp echoPkt 0 0 echoIf).icmp.icmp_code = 0 ∧
    (sr_send_icmp echoPkt 0 0 echoIf).eth.ether_dhost
      = echoPkt.eth.ether_shost ∧
    (sr_send_icmp echoPkt 0 0 echoIf).eth.ether_shost = echoIf.addr ∧
    (sr_send_icmp echoPkt 0 0 echoIf).ip.ip_src = echoIf.ip ∧
    (sr_send_icmp echoPkt 0 0 echoIf).ip.ip_dst = echoPkt.ip.ip_src ∧
    (sr_send_icmp echoPkt 0 0 echoIf).ip.ip_ttl = 60 ∧
    (sr_send_icmp echoPkt 0 0 echoIf).ip.ip_off = IP_DF ∧
    (sr_send_icmp echoPkt 0 0 echoIf).ip.ip_sum
      = cksumBytes (ipHdrBytes
          { (sr_send_icmp echoPkt 0 0 echoIf).ip with ip_sum := 0 }) ∧
    (sr_send_icmp echoPkt 0 0 echoIf).icmp.icmp_sum
      = cksumBytes (icmpT3Bytes
          { (sr_send_icmp echoPkt 0 0 echoIf).icmp with icmp_sum := 0 }) :=
  sr_handle_ip_echo_reply echoSr echoPkt 98 0 "eth1" echoIf
    (by decide) (by decide) (by decide) (by decide) (by decide) (by decide)

/-- C10: for every IP packet addressed to one of the router's interface
IPs whose protocol field is ICMP, the router responds with the
Echo-Reply-formatted message of type 0, code 0 — with no inspection of
the inbound ICMP type, so ICMP messages that are not Echo Requests
elicit the same type-0 reply. -/
theorem sr_handle_ip_icmp_always_type0 (sr : SrInstance) (p : Packet)
    (len now : Nat) (iface : String)
    (hlen : ¬ (len - sizeof_eth < sizeof_ip))
    (hsum : p.ip.ip_sum = cksumBytes (ipHdrBytes { p.ip with ip_sum := 0 }))
    (hme : sr.if_list.any (fun i => i.ip == p.ip.ip_dst) = true)
    (hicmp : p.ip.ip_p = ip_protocol_icmp) :
    sr_handle_ip sr p len iface now
      = .echoReply (sr_send_icmp p 0 0 (sr_get_interface sr iface)) iface ∧
    (sr_send_icmp p 0 0 (sr_get_interface sr iface)).icmp.icmp_type = 0 ∧
    (sr_send_icmp p 0 0 (sr_get_interface sr iface)).icmp.icmp_code = 0 := by
  refine ⟨?_, ?_, ?_⟩
  · simp [sr_handle_ip, hlen, hsum, hme, hicmp]
  · simp [sr_send_icmp]
  · simp [sr_send_icmp]

/-- C10 witness: the theorem at a concrete inbound ICMP error (type 3)
addressed to the router: the code still answers with the type-0, code-0
echo-style reply. -/
theorem sr_handle_ip_icmp_always_type0_witness :
    sr_handle_ip echoSr icmpErrPkt 60 "eth1" 0
      = .echoReply (sr_send_icmp icmpErrPkt 0 0 (sr_get_interface echoSr "eth1"))
          "eth1" ∧
    (sr_send_icmp icmpErrPkt 0 0
        (sr_get_interface echoSr "eth1")).icmp.icmp_type = 0 ∧
    (sr_send_icmp icmpErrPkt 0 0
        (sr_get_interface echoSr "eth1")).icmp.icmp_code = 0 :=
  sr_handle_ip_icmp_always_type0 echoSr icmpErrPkt 60 0 "eth1"
    (by decide) (by decide) (by decide) (by decide)
